import Mathlib

/-!
Verification of the thermostat controller core in
`src/SerialLightControl-Server.py` (class `TemperatureMachine` and its
refresh loop `manageMyDisplay`).

The Python program is shallowly embedded: Python integers become `Int`
(or `Nat` for the loop counters, which stay positive), Python strings
become `String` or `List Char`, and code that may raise becomes
`Except`.  The state machine of the `statemachine` library is embedded
as the enumerated type `Mode` together with the transition function
`Mode.cycle` read off the declaration
`cycle = off.to(heat) | heat.to(cool) | cool.to(off)`.
The floating-point sensor reading only ever enters the core through
`floor(self.getFahrenheit())`, so the embedding takes the already
floored integer Fahrenheit sample `tempF` as a parameter.
-/

/-- The three states declared in `TemperatureMachine`:
`off = State(initial=True)`, `heat = State()`, `cool = State()`. -/
inductive Mode
  | off
  | heat
  | cool
deriving DecidableEq, Repr

/-- The transition event `cycle = off.to(heat) | heat.to(cool) | cool.to(off)`
(source lines 241-245). -/
def Mode.cycle : Mode → Mode
  | .off => .heat
  | .heat => .cool
  | .cool => .off

/-- The `id` the statemachine library assigns to each state: the Python
attribute name (`"off"`, `"heat"`, `"cool"`). -/
def Mode.stateId : Mode → String
  | .off => "off"
  | .heat => "heat"
  | .cool => "cool"

/-- Mode after `n` invocations of `processTempStateButton` (each calls
`self.cycle()` once), starting from the initial state `off`. -/
def modeAfter : Nat → Mode
  | 0 => .off
  | n + 1 => (modeAfter n).cycle

/-- Embedding of `processTempIncButton` (lines 280-285):
`self.setPoint += 1; self.setPoint = min(self.setPoint, 90)`. -/
def processTempIncButton (setPoint : Int) : Int :=
  min (setPoint + 1) 90

/-- Embedding of `processTempDecButton` (lines 287-292):
`self.setPoint -= 1; self.setPoint = max(self.setPoint, 40)`. -/
def processTempDecButton (setPoint : Int) : Int :=
  max (setPoint - 1) 40

/-- A button press on the red (increase) or blue (decrease) button. -/
inductive SetpointOp
  | inc
  | dec
deriving DecidableEq, Repr

/-- Applying a finite sequence of increase/decrease button presses to a
starting setpoint. -/
def applySetpointOps : List SetpointOp → Int → Int
  | [], setPoint => setPoint
  | .inc :: ops, setPoint => applySetpointOps ops (processTempIncButton setPoint)
  | .dec :: ops, setPoint => applySetpointOps ops (processTempDecButton setPoint)

/-- What a PWMLED channel was last told to do: `led.off()`, `led.value = 1.0`,
or `led.pulse(...)`. -/
inductive LightCmd
  | off
  | solidOn
  | pulsing
deriving DecidableEq, Repr

/-- The two indicator channels: `redLight` (PWMLED 18, heat channel) and
`blueLight` (PWMLED 23, cool channel). -/
structure Lights where
  red : LightCmd
  blue : LightCmd
deriving DecidableEq, Repr

/-- One imperative statement driving an LED channel. -/
inductive LightAction
  | redOff
  | redSolid
  | redPulse
  | blueOff
  | blueSolid
  | bluePulse
deriving DecidableEq, Repr

/-- Effect of one LED statement on the channel pair. -/
def applyLightAction (L : Lights) : LightAction → Lights
  | .redOff => { L with red := .off }
  | .redSolid => { L with red := .solidOn }
  | .redPulse => { L with red := .pulsing }
  | .blueOff => { L with blue := .off }
  | .blueSolid => { L with blue := .solidOn }
  | .bluePulse => { L with blue := .pulsing }

/-- The sequence of LED statements executed by `updateLights`
(lines 298-337), in source order: the unconditional
`redLight.off(); blueLight.off()` "hard stop", then the branch on
`self.current_state` comparing `temp` (the floored Fahrenheit reading)
with `self.setPoint`. -/
def updateLightsActions (m : Mode) (temp setPoint : Int) : List LightAction :=
  [.redOff, .blueOff] ++
    match m with
    | .off => [.redOff, .blueOff]
    | .heat => (if temp < setPoint then [.redPulse] else [.redSolid]) ++ [.blueOff]
    | .cool => (if temp > setPoint then [.bluePulse] else [.blueSolid]) ++ [.redOff]

/-- Net effect of a call to `updateLights` on the LED channel pair `L`. -/
def updateLights (m : Mode) (temp setPoint : Int) (L : Lights) : Lights :=
  (updateLightsActions m temp setPoint).foldl applyLightAction L

/-- Python `str.upper()` on an ASCII string. -/
def pyUpper (s : String) : String :=
  String.mk (s.data.map Char.toUpper)

/-- Embedding of `setupSerialOutput` (lines 339-347):
`f"\x7bstate\x7d,\x7btemp\x7d,\x7bself.setPoint\x7d"` with
`state = self.current_state.id.upper()` and
`temp = floor(self.getFahrenheit())`. -/
def setupSerialOutput (m : Mode) (tempF setPoint : Int) : String :=
  pyUpper m.stateId ++ "," ++ toString tempF ++ "," ++ toString setPoint

/-- The telegram actually written to the serial port by `manageMyDisplay`
(line 401): `msg = self.setupSerialOutput() + "\n"`. -/
def telegramMsg (m : Mode) (tempF setPoint : Int) : String :=
  setupSerialOutput m tempF setPoint ++ "\n"

/-- Embedding of `_fit16` (lines 353-358): `s[:16]` followed by
`.ljust(16)`, on the character list of the Python string. -/
def fit16 (s : List Char) : List Char :=
  let t := s.take 16
  t ++ List.replicate (16 - t.length) ' '

/-- Python `f"\x7bn:>3\x7d"`: decimal rendering right-justified in a field of
width `w`, padded on the left with spaces, never truncated. -/
def rightJust (w : Nat) (s : List Char) : List Char :=
  List.replicate (w - s.length) ' ' ++ s

/-- The raw (pre-`_fit16`) current-temperature rendering of LCD line 2
(line 381): `f"Temp:\x7btemp_f:>3\x7dF"`. -/
def tempLineRaw (tempF : Int) : List Char :=
  "Temp:".data ++ rightJust 3 (toString tempF).data ++ ['F']

/-- The raw (pre-`_fit16`) mode-and-setpoint rendering of LCD line 2
(line 386): `f"\x7bmode\x7d SP:\x7bself.setPoint:>3\x7dF"` with
`mode = self.current_state.id.upper()`. -/
def modeLineRaw (m : Mode) (setPoint : Int) : List Char :=
  (pyUpper m.stateId).data ++ " SP:".data ++ rightJust 3 (toString setPoint).data ++ ['F']

/-- The mutable variables read and written by one iteration of the
`manageMyDisplay` while-loop: the two local counters (both initialised
to 1 at lines 361-362) and the shared `\x7bmode, setPoint\x7d` state. -/
structure LoopState where
  altCounter : Nat
  counter : Nat
  mode : Mode
  setPoint : Int
deriving DecidableEq, Repr

/-- Observable outputs of one loop iteration: the 16-character LCD line 2,
whether the periodic `updateLights()` at the 10-tick boundary ran, whether
a UART telegram write was attempted this tick, and whether a failed write
was caught and logged by the `except` handler at lines 406-408. -/
structure TickOut where
  line2 : List Char
  lightsRefreshed : Bool
  telegramAttempted : Bool
  telegramFailLogged : Bool
deriving DecidableEq, Repr

/-- Which external collaborator calls raise an exception when invoked
during a tick: the AHT20 sensor read (`thSensor.temperature`), the LCD
write (`screen.updateScreen`), the LED driver, and the UART write
(`ser.write`). -/
structure Faults where
  sensor : Bool
  display : Bool
  indicator : Bool
  serialW : Bool
deriving DecidableEq, Repr

/-- The fault-free environment. -/
def Faults.noFault : Faults := ⟨false, false, false, false⟩

/-- Exception escaping a loop iteration. -/
inductive TickError
  | sensorError
  | displayError
  | indicatorError
deriving DecidableEq, Repr

/-- Tail of a loop iteration, from `screen.updateScreen(...)` (line 394)
through the 30-tick UART block (lines 400-411).  The LCD write is not
inside any `try`, so a display fault escapes; the UART write is wrapped
in `try/except Exception` (lines 402-408), so a serial fault is only
logged, and `counter` is reset to 1 after a write attempt whether or not
the write succeeded (line 409). -/
def finishTick (f : Faults) (s : LoopState) (alt : Nat) (refreshed : Bool)
    (line2 : List Char) : Except TickError (LoopState × TickOut) :=
  if f.display then .error .displayError
  else if s.counter % 30 = 0 then
    .ok ({ s with altCounter := alt, counter := 1 },
      ⟨line2, refreshed, true, f.serialW⟩)
  else
    .ok ({ s with altCounter := alt, counter := s.counter + 1 },
      ⟨line2, refreshed, false, false⟩)

/-- One iteration of the `while not self.endDisplay` loop of
`manageMyDisplay` (lines 367-413).  With `altCounter < 6` line 2 shows the
temperature view, which reads the sensor (`floor(self.getFahrenheit())`,
line 380); otherwise it shows the mode/setpoint view, and once the
incremented `altCounter` reaches 11 the loop calls `updateLights()`
(which reads the sensor and drives both LEDs) and resets `altCounter`
to 1 (lines 389-392).  None of these calls is inside a `try`, so any
exception they raise escapes the loop. -/
def tickBody (f : Faults) (tempF : Int) (s : LoopState) :
    Except TickError (LoopState × TickOut) :=
  if s.altCounter < 6 then
    if f.sensor then .error .sensorError
    else finishTick f s (s.altCounter + 1) false (fit16 (tempLineRaw tempF))
  else
    let line2 := fit16 (modeLineRaw s.mode s.setPoint)
    if s.altCounter + 1 ≥ 11 then
      if f.sensor then .error .sensorError
      else if f.indicator then .error .indicatorError
      else finishTick f s 1 true line2
    else finishTick f s (s.altCounter + 1) false line2

/-- Runs up to `k` iterations of the refresh loop; an uncaught exception
from an iteration propagates and the loop stops (the daemon thread dies). -/
def runTicks (f : Faults) (tempF : Int) : Nat → LoopState → Except TickError LoopState
  | 0, s => .ok s
  | k + 1, s =>
    match tickBody f tempF s with
    | .ok p => runTicks f tempF k p.1
    | .error e => .error e

/-- Value of `altCounter` at the start of tick `n + 1` (1-based tick
numbering: `altAt 0 = 1` is the value at the first iteration). -/
def nextAlt (alt : Nat) : Nat :=
  if alt < 6 then alt + 1 else if alt + 1 ≥ 11 then 1 else alt + 1

/-- Value of `counter` after one iteration (lines 400-411). -/
def nextCounter (c : Nat) : Nat :=
  if c % 30 = 0 then 1 else c + 1

/-- Trace of `altCounter` across iterations, starting at 1. -/
def altAt : Nat → Nat
  | 0 => 1
  | n + 1 => nextAlt (altAt n)

/-- Trace of `counter` across iterations, starting at 1. -/
def counterAt : Nat → Nat
  | 0 => 1
  | n + 1 => nextCounter (counterAt n)

/-- A statement executed after the refresh loop observes `endDisplay`. -/
inductive ShutEffect
  | displayTeardown
  | lightWrite (a : LightAction)
deriving DecidableEq, Repr

/-- The statements `manageMyDisplay` runs after its while-loop exits
(lines 415-416): only `screen.cleanupDisplay()`.  The `KeyboardInterrupt`
handler of the foreground loop (lines 439-447) likewise only sets
`endDisplay`, sleeps and closes the serial port; neither path writes to
either LED channel. -/
def postLoopEffects : List ShutEffect := [ShutEffect.displayTeardown]

/-- Effect of a shutdown-path statement on the LED channel pair. -/
def applyShutEffect (L : Lights) : ShutEffect → Lights
  | .displayTeardown => L
  | .lightWrite a => applyLightAction L a

/-- LED channel state after the refresh loop has observed the shutdown
flag and terminated. -/
def lightsAfterShutdown (L : Lights) : Lights :=
  postLoopEffects.foldl applyShutEffect L

/-- The final teardown call `screen.cleanupDisplay()` (line 416), executed
after the loop exits.  It is not wrapped in any `try`, so a display fault
raised during teardown propagates out of `manageMyDisplay` instead of
being swallowed. -/
def shutdownTeardown (f : Faults) (L : Lights) : Except TickError Lights :=
  if f.display then .error .displayError else .ok (lightsAfterShutdown L)

/-! ## Helper lemmas -/

lemma fit16_length (s : List Char) : (fit16 s).length = 16 := by
  simp only [fit16, List.length_append, List.length_replicate, List.length_take]
  omega

lemma altAt_eq (n : Nat) : altAt n = n % 10 + 1 := by
  induction n with
  | zero => rfl
  | succ n ih =>
    have h10 : n % 10 < 10 := Nat.mod_lt _ (by omega)
    simp only [altAt, ih, nextAlt]
    by_cases h5 : n % 10 + 1 < 6
    · rw [if_pos h5]; omega
    · rw [if_neg h5]
      by_cases h9 : n % 10 = 9
      · rw [if_pos (by omega)]; omega
      · rw [if_neg (by omega)]; omega

lemma counterAt_eq (n : Nat) : counterAt n = n % 30 + 1 := by
  induction n with
  | zero => rfl
  | succ n ih =>
    have h30 : n % 30 < 30 := Nat.mod_lt _ (by omega)
    simp only [counterAt, ih, nextCounter]
    by_cases h29 : n % 30 = 29
    · rw [if_pos (by omega)]; omega
    · rw [if_neg (by omega)]; omega

lemma tickBody_nofault (wFail : Bool) (n : Nat) (tempF setPoint : Int) (m : Mode) :
    tickBody ⟨false, false, false, wFail⟩ tempF ⟨altAt n, counterAt n, m, setPoint⟩ =
      .ok (⟨altAt (n + 1), counterAt (n + 1), m, setPoint⟩,
        ⟨if n % 10 < 5 then fit16 (tempLineRaw tempF) else fit16 (modeLineRaw m setPoint),
          decide (n % 10 = 9), decide (n % 30 = 29), decide (n % 30 = 29) && wFail⟩) := by
  have h10 : n % 10 < 10 := Nat.mod_lt _ (by omega)
  have h30 : n % 30 < 30 := Nat.mod_lt _ (by omega)
  rw [altAt_eq, altAt_eq, counterAt_eq, counterAt_eq]
  have hc : ∀ alt refreshed line2,
      finishTick ⟨false, false, false, wFail⟩ ⟨n % 10 + 1, n % 30 + 1, m, setPoint⟩
          alt refreshed line2 =
        .ok (⟨alt, (n + 1) % 30 + 1, m, setPoint⟩,
          ⟨line2, refreshed, decide (n % 30 = 29), decide (n % 30 = 29) && wFail⟩) := by
    intro alt refreshed line2
    by_cases h29 : n % 30 = 29
    · have e1 : (n % 30 + 1) % 30 = 0 := by omega
      have e2 : (n + 1) % 30 = 0 := by omega
      simp [finishTick, e1, e2, h29]
    · have e1 : ¬ (n % 30 + 1) % 30 = 0 := by omega
      have e2 : (n + 1) % 30 = n % 30 + 1 := by omega
      simp [finishTick, e1, e2, h29]
  by_cases h5 : n % 10 < 5
  · have hb : n % 10 + 1 < 6 := by omega
    have h9 : ¬ n % 10 = 9 := by omega
    have e10 : (n + 1) % 10 = n % 10 + 1 := by omega
    simp [tickBody, hb, hc, h5, h9, e10]
  · have hb : ¬ n % 10 + 1 < 6 := by omega
    by_cases h9 : n % 10 = 9
    · have hup : n % 10 + 1 + 1 ≥ 11 := by omega
      have e10 : (n + 1) % 10 = 0 := by omega
      have hd9 : decide (n % 10 = 9) = true := by simp [h9]
      simp [tickBody, hb, hc, h5, e10, hup, hd9]
    · have hup : ¬ n % 10 + 1 + 1 ≥ 11 := by omega
      have e10 : (n + 1) % 10 = n % 10 + 1 := by omega
      simp [tickBody, hb, hc, h5, h9, e10, hup]

lemma setpoint_step_bounds (sp : Int) (op : SetpointOp) (h1 : 40 ≤ sp) (h2 : sp ≤ 90) :
    40 ≤ applySetpointOps [op] sp ∧ applySetpointOps [op] sp ≤ 90 := by
  cases op <;>
    simp only [applySetpointOps, processTempIncButton, processTempDecButton] <;> omega

/-! ## Claim theorems -/

/-- C1: starting from the initial state `off`, the mode after `n` calls of
the cycle operation is `[Off, Heat, Cool][n mod 3]`, and the transition
function admits exactly the edges Off→Heat, Heat→Cool, Cool→Off — no
other transition (such as Off→Cool or Heat→Off) is possible. -/
theorem cycle_mode_period_three (n : Nat) :
    modeAfter n = [Mode.off, Mode.heat, Mode.cool].get
      ⟨n % 3, by simpa using Nat.mod_lt n (by decide)⟩ ∧
    (∀ a b : Mode, a.cycle = b ↔
      (a = .off ∧ b = .heat) ∨ (a = .heat ∧ b = .cool) ∨ (a = .cool ∧ b = .off)) := by
  constructor
  · induction n with
    | zero => rfl
    | succ n ih =>
      have h3 : n % 3 = 0 ∨ n % 3 = 1 ∨ n % 3 = 2 := by omega
      rcases h3 with h | h | h
      · have e : (n + 1) % 3 = 1 := by omega
        simp only [modeAfter, ih, h, e]; rfl
      · have e : (n + 1) % 3 = 2 := by omega
        simp only [modeAfter, ih, h, e]; rfl
      · have e : (n + 1) % 3 = 0 := by omega
        simp only [modeAfter, ih, h, e]; rfl
  · intro a b
    cases a <;> cases b <;> decide

/-- C2: from any starting setpoint in [40, 90], any finite sequence of
increase/decrease button presses keeps the setpoint in [40, 90]; a single
increase yields `min (setPoint + 1) 90` and a single decrease yields
`max (setPoint - 1) 40` (both operations are total functions — they never
fail). -/
theorem setpoint_invariant (ops : List SetpointOp) (sp : Int)
    (h1 : 40 ≤ sp) (h2 : sp ≤ 90) :
    (40 ≤ applySetpointOps ops sp ∧ applySetpointOps ops sp ≤ 90) ∧
    applySetpointOps [SetpointOp.inc] sp = min (sp + 1) 90 ∧
    applySetpointOps [SetpointOp.dec] sp = max (sp - 1) 40 := by
  refine ⟨?_, rfl, rfl⟩
  induction ops generalizing sp with
  | nil => exact ⟨h1, h2⟩
  | cons op ops ih =>
    have hstep := setpoint_step_bounds sp op h1 h2
    cases op
    · exact ih (processTempIncButton sp) hstep.1 hstep.2
    · exact ih (processTempDecButton sp) hstep.1 hstep.2

/-- Witness for `setpoint_invariant` at setpoint 72 with the sequence
[inc, inc, dec]. -/
theorem setpoint_invariant_witness :
    (40 ≤ (72 : Int) ∧ (72 : Int) ≤ 90) ∧
    ((40 ≤ applySetpointOps [SetpointOp.inc, SetpointOp.inc, SetpointOp.dec] 72 ∧
      applySetpointOps [SetpointOp.inc, SetpointOp.inc, SetpointOp.dec] 72 ≤ 90) ∧
     applySetpointOps [SetpointOp.inc] 72 = min (72 + 1) 90 ∧
     applySetpointOps [SetpointOp.dec] 72 = max (72 - 1) 40) :=
  ⟨⟨by decide, by decide⟩,
    setpoint_invariant [SetpointOp.inc, SetpointOp.inc, SetpointOp.dec] 72
      (by decide) (by decide)⟩

/-- C3: the indicator policy is a pure function of (mode, temperature,
setpoint) — the result of `updateLights` does not depend on the prior LED
state — and its value is: Off → both channels off; Heat → heat channel
pulsing when temperature < setpoint and solid-on otherwise (so solid-on at
temperature = setpoint), cool channel off; Cool → cool channel pulsing when
temperature > setpoint and solid-on otherwise, heat channel off. -/
theorem indicator_policy (temp sp : Int) (L L2 : Lights) :
    updateLights .off temp sp L = ⟨.off, .off⟩ ∧
    updateLights .heat temp sp L =
      ⟨if temp < sp then .pulsing else .solidOn, .off⟩ ∧
    updateLights .cool temp sp L =
      ⟨.off, if temp > sp then .pulsing else .solidOn⟩ ∧
    (∀ m : Mode, updateLights m temp sp L = updateLights m temp sp L2) := by
  refine ⟨?_, ?_, ?_, ?_⟩
  · rfl
  · by_cases h : temp < sp <;>
      simp [updateLights, updateLightsActions, applyLightAction, h]
  · by_cases h : temp > sp <;>
      simp [updateLights, updateLightsActions, applyLightAction, h]
  · intro m
    cases m
    · rfl
    · by_cases h : temp < sp <;>
        simp [updateLights, updateLightsActions, applyLightAction, h]
    · by_cases h : temp > sp <;>
        simp [updateLights, updateLightsActions, applyLightAction, h]

/-- C4: for every mode and integer temperature/setpoint, the telegram
written to the serial sink is the ASCII string
`"<MODE>,<tempInt>,<setpointInt>\n"` with the uppercase mode name from
\x7bOFF, HEAT, COOL\x7d and comma-separated fields with no extra whitespace;
in particular at mode Cool, temperature 70, setpoint 68 it is
`"COOL,70,68\n"`. -/
theorem telegram_format (tempF sp : Int) :
    (telegramMsg .off tempF sp).data =
      "OFF".data ++ ",".data ++ (toString tempF).data ++ ",".data ++
        (toString sp).data ++ "\n".data ∧
    (telegramMsg .heat tempF sp).data =
      "HEAT".data ++ ",".data ++ (toString tempF).data ++ ",".data ++
        (toString sp).data ++ "\n".data ∧
    (telegramMsg .cool tempF sp).data =
      "COOL".data ++ ",".data ++ (toString tempF).data ++ ",".data ++
        (toString sp).data ++ "\n".data ∧
    telegramMsg .cool 70 68 = "COOL,70,68\n" := by
  have hoff : (pyUpper (Mode.stateId .off)).data = "OFF".data := by decide
  have hheat : (pyUpper (Mode.stateId .heat)).data = "HEAT".data := by decide
  have hcool : (pyUpper (Mode.stateId .cool)).data = "COOL".data := by decide
  refine ⟨?_, ?_, ?_, by decide⟩ <;>
    simp [telegramMsg, setupSerialOutput, String.data_append, hoff, hheat, hcool]

/-- C5: with 1-based tick numbering (`altAt n` and `counterAt n` are the
counter values at the start of tick `n + 1`), every repeating 10-tick
window shows the current-temperature view on ticks 1-5 (those with
`n % 10 < 5`) and the mode-and-setpoint view on ticks 6-10, each view
passed through `_fit16` and hence exactly 16 characters; the periodic
`updateLights()` re-evaluation happens exactly on the last tick of each
window (`n % 10 = 9`), right after the mode-and-setpoint view. -/
theorem display_alternation (n : Nat) (tempF sp : Int) (m : Mode) :
    tickBody Faults.noFault tempF ⟨altAt n, counterAt n, m, sp⟩ =
      .ok (⟨altAt (n + 1), counterAt (n + 1), m, sp⟩,
        ⟨if n % 10 < 5 then fit16 (tempLineRaw tempF) else fit16 (modeLineRaw m sp),
          decide (n % 10 = 9), decide (n % 30 = 29), false⟩) ∧
    (fit16 (tempLineRaw tempF)).length = 16 ∧
    (fit16 (modeLineRaw m sp)).length = 16 := by
  refine ⟨?_, fit16_length _, fit16_length _⟩
  have h := tickBody_nofault false n tempF sp m
  simpa [Faults.noFault] using h

/-- C8: at every tick, the iteration returns normally whether or not the
UART write fails: the telegram is attempted exactly when `counter`
reaches a multiple of 30 (ticks with `n % 30 = 29`, i.e. every 30th
tick), a failing write is caught and logged, the shared mode/setpoint
state is untouched, and the counters advance exactly as on success, so
the next attempt falls at the next 30-tick boundary. -/
theorem telegram_failure_nonfatal (n : Nat) (tempF sp : Int) (m : Mode) (wFail : Bool) :
    ∃ out : TickOut,
      tickBody ⟨false, false, false, wFail⟩ tempF ⟨altAt n, counterAt n, m, sp⟩ =
        .ok (⟨altAt (n + 1), counterAt (n + 1), m, sp⟩, out) ∧
      out.telegramAttempted = decide (n % 30 = 29) ∧
      out.telegramFailLogged = (decide (n % 30 = 29) && wFail) :=
  ⟨_, tickBody_nofault wFail n tempF sp m, rfl, rfl⟩

/-- C10: away from the bounds the two setpoint buttons undo each other
(increase-then-decrease restores any setpoint in [40, 89],
decrease-then-increase restores any setpoint in [41, 90]), while at the
bounds the round-trip moves the setpoint: from 90, increase then decrease
gives 89, and from 40, decrease then increase gives 41. -/
theorem setpoint_roundtrip (s : Int) :
    (40 ≤ s → s ≤ 89 → processTempDecButton (processTempIncButton s) = s) ∧
    (41 ≤ s → s ≤ 90 → processTempIncButton (processTempDecButton s) = s) ∧
    processTempDecButton (processTempIncButton 90) = 89 ∧
    processTempIncButton (processTempDecButton 40) = 41 := by
  refine ⟨?_, ?_, by decide, by decide⟩ <;>
    (intro h1 h2
     simp only [processTempIncButton, processTempDecButton]
     omega)

/-- Witness for `setpoint_roundtrip` at setpoint 72. -/
theorem setpoint_roundtrip_witness :
    (40 ≤ (72 : Int) ∧ (72 : Int) ≤ 89 ∧
      processTempDecButton (processTempIncButton 72) = 72) ∧
    (41 ≤ (72 : Int) ∧ (72 : Int) ≤ 90 ∧
      processTempIncButton (processTempDecButton 72) = 72) :=
  ⟨⟨by decide, by decide, (setpoint_roundtrip 72).1 (by decide) (by decide)⟩,
   ⟨by decide, by decide, (setpoint_roundtrip 72).2.1 (by decide) (by decide)⟩⟩

lemma finishTick_ok (f : Faults) (hd : f.display = false) (s : LoopState) (alt : Nat)
    (refreshed : Bool) (line2 : List Char) :
    ∃ p, finishTick f s alt refreshed line2 = .ok p := by
  have hnd : ¬ f.display = true := by simp [hd]
  unfold finishTick
  rw [if_neg hnd]
  by_cases h3 : s.counter % 30 = 0
  · exact ⟨_, by rw [if_pos h3]⟩
  · exact ⟨_, by rw [if_neg h3]⟩

lemma tickBody_serial_ok (wFail : Bool) (tempF : Int) (s : LoopState) :
    ∃ p, tickBody ⟨false, false, false, wFail⟩ tempF s = .ok p := by
  have hs : ¬ (⟨false, false, false, wFail⟩ : Faults).sensor = true := by simp
  have hi : ¬ (⟨false, false, false, wFail⟩ : Faults).indicator = true := by simp
  simp only [tickBody]
  rcases Nat.lt_or_ge s.altCounter 6 with h1 | h1
  · rw [if_pos h1, if_neg hs]
    exact finishTick_ok _ rfl s _ _ _
  · rw [if_neg (by omega)]
    rcases Nat.lt_or_ge (s.altCounter + 1) 11 with h2 | h2
    · rw [if_neg (by omega)]
      exact finishTick_ok _ rfl s _ _ _
    · rw [if_pos (by omega), if_neg hs, if_neg hi]
      exact finishTick_ok _ rfl s _ _ _

lemma runTicks_serial_ok (wFail : Bool) (tempF : Int) (k : Nat) :
    ∀ s : LoopState, ∃ s2, runTicks ⟨false, false, false, wFail⟩ tempF k s = .ok s2 := by
  induction k with
  | zero => exact fun s => ⟨s, rfl⟩
  | succ k ih =>
    intro s
    obtain ⟨p, hp⟩ := tickBody_serial_ok wFail tempF s
    obtain ⟨s2, hs2⟩ := ih p.1
    exact ⟨s2, by simp [runTicks, hp, hs2]⟩

/-- C9 counterexample: with the temperature sensor throwing (and every
other collaborator healthy), the refresh loop does not proceed to the
next tick — the sensor exception escapes the first iteration and
terminates the loop, contradicting the claim that non-telegram
collaborator failures are caught and logged. -/
theorem collaborator_failure_counterexample :
    runTicks ⟨true, false, false, false⟩ 70 2 ⟨1, 1, Mode.off, 72⟩ =
      .error TickError.sensorError := by
  rfl

/-- C9 amended: only the UART telegram write sits in a `try/except`; with
sensor, display and indicator healthy the refresh loop runs any number of
ticks regardless of serial failures, but an LCD-write fault makes every
iteration raise (the loop terminates), a sensor fault raises on every
temperature-view tick, an indicator-driver fault raises on every
window-boundary tick (where `updateLights()` drives the LEDs), and a
display fault during the final `cleanupDisplay()` teardown propagates
rather than being swallowed. -/
theorem collaborator_failure_propagates (f : Faults) (tempF : Int) (s : LoopState)
    (k : Nat) (L : Lights) :
    (∃ s2, runTicks ⟨false, false, false, f.serialW⟩ tempF k s = .ok s2) ∧
    (f.display = true → (tickBody f tempF s).isOk = false) ∧
    (f.sensor = true → s.altCounter < 6 → tickBody f tempF s = .error .sensorError) ∧
    (f.indicator = true → f.sensor = false → 10 ≤ s.altCounter →
      tickBody f tempF s = .error .indicatorError) ∧
    (f.display = true → shutdownTeardown f L = .error .displayError) := by
  refine ⟨runTicks_serial_ok f.serialW tempF k s, ?_, ?_, ?_, ?_⟩
  · intro hd
    simp only [tickBody, finishTick, hd]
    split
    · split
      · rfl
      · simp [Except.isOk, Except.toBool]
    · split
      · split
        · rfl
        · split
          · rfl
          · simp [Except.isOk, Except.toBool]
      · simp [Except.isOk, Except.toBool]
  · intro hs h6
    simp [tickBody, h6, hs]
  · intro hi hs h10
    have h6 : ¬ s.altCounter < 6 := by omega
    have h11 : s.altCounter + 1 ≥ 11 := by omega
    simp [tickBody, h6, h11, hs, hi]
  · intro hd
    simp [shutdownTeardown, hd]

/-- Witness for `collaborator_failure_propagates`, exercising each
hypothesis at concrete inputs: a display fault fails the tick, a sensor
fault on a temperature-view tick and an indicator fault on a boundary
tick raise the corresponding errors, and a teardown display fault
propagates. -/
theorem collaborator_failure_propagates_witness :
    ((⟨false, true, false, false⟩ : Faults).display = true ∧
      (tickBody ⟨false, true, false, false⟩ 70 ⟨1, 1, Mode.heat, 72⟩).isOk = false) ∧
    ((⟨true, false, false, false⟩ : Faults).sensor = true ∧ 1 < 6 ∧
      tickBody ⟨true, false, false, false⟩ 70 ⟨1, 1, Mode.off, 72⟩ =
        .error .sensorError) ∧
    ((⟨false, false, true, false⟩ : Faults).indicator = true ∧ 10 ≤ 10 ∧
      tickBody ⟨false, false, true, false⟩ 70 ⟨10, 5, Mode.cool, 72⟩ =
        .error .indicatorError) ∧
    shutdownTeardown ⟨false, true, false, false⟩ ⟨LightCmd.solidOn, LightCmd.off⟩ =
      .error .displayError :=
  ⟨⟨rfl, (collaborator_failure_propagates ⟨false, true, false, false⟩ 70
      ⟨1, 1, Mode.heat, 72⟩ 1 ⟨LightCmd.off, LightCmd.off⟩).2.1 rfl⟩,
   ⟨rfl, by decide, (collaborator_failure_propagates ⟨true, false, false, false⟩ 70
      ⟨1, 1, Mode.off, 72⟩ 1 ⟨LightCmd.off, LightCmd.off⟩).2.2.1 rfl (by decide)⟩,
   ⟨rfl, by decide, (collaborator_failure_propagates ⟨false, false, true, false⟩ 70
      ⟨10, 5, Mode.cool, 72⟩ 1 ⟨LightCmd.off, LightCmd.off⟩).2.2.2.1 rfl rfl (by decide)⟩,
   (collaborator_failure_propagates ⟨false, true, false, false⟩ 70
      ⟨1, 1, Mode.heat, 72⟩ 1 ⟨LightCmd.solidOn, LightCmd.off⟩).2.2.2.2 rfl⟩

/-- C6 counterexample: if the loop is shut down while the heat indicator
is solid on, the shutdown path leaves it on — the channels are not both
off after the final actions, contradicting the claimed final
indicator-off write. -/
theorem shutdown_lights_counterexample :
    lightsAfterShutdown ⟨LightCmd.solidOn, LightCmd.off⟩ ≠ ⟨LightCmd.off, LightCmd.off⟩ := by
  decide

/-- C6 amended: on observing the shutdown flag the refresh cycle performs
a display-teardown call and terminates, but writes nothing to the
indicator channels, which therefore keep whatever state they last had
(they are off after shutdown only if they were already off). -/
theorem shutdown_teardown_only (L : Lights) :
    lightsAfterShutdown L = L ∧ ShutEffect.displayTeardown ∈ postLoopEffects :=
  ⟨rfl, by decide⟩
